import Mathlib

/-!
Verification development for the nPM13xx charger sensor driver
(`drivers/sensor/nordic/npm13xx_charger/npm13xx_charger.c`).

The driver's data model, unit converters, ADC result decoder, and the
register-write sequences of `sample_fetch`, `attr_set` and the init path are
shallowly embedded below.  Machine integers are modelled as `Nat`/`Int`; the
one place where 32-bit signed overflow actually matters (`calc_dietemp`) is
modelled explicitly through a two's-complement wrap (`toInt32`).  C's
truncating signed division is `Int.tdiv`.  The register transport
(`mfd_npm13xx_reg_*`) is an external collaborator and is modelled as a
deterministic oracle assigning a result to every read/write; write sequences
are additionally recorded as traces so that ordering and counting properties
can be stated.
-/

set_option maxHeartbeats 1000000

namespace Npm13xx

/-! Register bank base addresses (source lines 47-50). -/

def CHGR_BASE : Nat := 0x03
def ADC_BASE : Nat := 0x05
def VBUS_BASE : Nat := 0x02

/-! Charger register offsets (source lines 52-67). -/

def CHGR_OFFSET_ERR_CLR : Nat := 0x00
def CHGR_OFFSET_EN_SET : Nat := 0x04
def CHGR_OFFSET_EN_CLR : Nat := 0x05
def CHGR_OFFSET_ISET : Nat := 0x08
def CHGR_OFFSET_ISET_DISCHG : Nat := 0x0A
def CHGR_OFFSET_NTC_TEMPS : Nat := 0x10
def CHGR_OFFSET_DIE_TEMPS : Nat := 0x18
def CHGR_OFFSET_CHG_STAT : Nat := 0x34
def CHGR_OFFSET_ERR_REASON : Nat := 0x36

/-! ADC register offsets (source lines 69-77). -/

def ADC_OFFSET_TASK_VBAT : Nat := 0x00
def ADC_OFFSET_TASK_TEMP : Nat := 0x01
def ADC_OFFSET_RESULTS : Nat := 0x10

/-! VBUS register offsets (source lines 79-84). -/

def VBUS_OFFSET_ILIMUPDATE : Nat := 0x00
def VBUS_OFFSET_ILIM : Nat := 0x01
def VBUS_OFFSET_STATUS : Nat := 0x07

/-! Ibat status codes (source lines 86-90). -/

def IBAT_STAT_DISCHARGE : Nat := 0x04
def IBAT_STAT_CHARGE_TRICKLE : Nat := 0x0C
def IBAT_STAT_CHARGE_COOL : Nat := 0x0D
def IBAT_STAT_CHARGE_NORMAL : Nat := 0x0F

/-! ADC result masks (source lines 106-120). -/

def ADC_MSB_SHIFT : Nat := 2
def ADC_LSB_MASK : Nat := 0x03
def ADC_LSB_VBAT_SHIFT : Nat := 0
def ADC_LSB_NTC_SHIFT : Nat := 2
def ADC_LSB_DIE_SHIFT : Nat := 4
def ADC_LSB_IBAT_SHIFT : Nat := 4
def NTCTEMP_MSB_SHIFT : Nat := 2
def NTCTEMP_LSB_MASK : Nat := 0x03
def DIETEMP_MSB_SHIFT : Nat := 2
def DIETEMP_LSB_MASK : Nat := 0x03

/-! Dietemp calculation constants (source lines 135-138). -/

def DIETEMP_OFFSET_MDEGC : Int := 394670
def DIETEMP_FACTOR_MUL : Int := 3963000
def DIETEMP_FACTOR_DIV : Int := 5000

/-- Sentinel for an unset threshold (`INT32_MAX`). -/
def INT32_MAX : Int := 2147483647

/-- Sentinel for "no discrete discharge-limit table" (`UINT8_MAX`). -/
def UINT8_MAX : Nat := 255

/-- Modelled from the spec: error code for an unsupported operation
(`-ENOTSUP` is returned; the numeric value of `ENOTSUP` lives in zephyr's
errno headers, not under `src/`, and no claim depends on it). -/
def ENOTSUP : Int := 134

/-- Modelled from the spec: error code for an invalid argument (`-EINVAL`). -/
def EINVAL : Int := 22

/-- Two's-complement reinterpretation of an unbounded integer as a 32-bit
signed value.  Used where the C code's `int32_t` arithmetic can actually
overflow (signed overflow is UB in C; we model the universal two's-complement
behaviour). -/
def toInt32 (x : Int) : Int := (x + 2147483648) % 4294967296 - 2147483648

/-- Modelled from the spec (§6 "Windowed/linear range"): a piecewise-linear
mapping defined by a base value, step size and inclusive index bounds.
`struct linear_range` itself lives in `zephyr/sys/linear_range.h`, which is
not under `src/`. -/
structure LinearRange where
  min : Int
  step : Int
  min_idx : Nat
  max_idx : Nat

/-- Value represented by index `i` of a linear range. -/
def lrValue (r : LinearRange) (i : Nat) : Int :=
  r.min + r.step * ((i : Int) - (r.min_idx : Int))

/-- Modelled from the spec (§6 `exact_index`): the windowed-range
index-selection collaborator `linear_range_get_win_index` (declared in
`zephyr/sys/linear_range.h`, not under `src/`): "finds the unique step whose
representable interval covers `[low, high]`; fails if no step matches".
Returns the first in-bounds index whose represented value lies inside the
window, `none` standing for the `-EINVAL` failure. -/
def linear_range_get_win_index (r : LinearRange) (lo hi : Int) : Option Nat :=
  (List.range' r.min_idx (r.max_idx + 1 - r.min_idx)).find?
    (fun i => decide (lo ≤ lrValue r i ∧ lrValue r i ≤ hi))

/-- Linear range for the nPM1300 charger current (source line 147). -/
def NPM1300_CHARGER_CURRENT_RANGE : LinearRange := ⟨32000, 2000, 16, 400⟩

/-- Linear range for the nPM1304 charger current (source line 148). -/
def NPM1304_CHARGER_CURRENT_RANGE : LinearRange := ⟨4000, 500, 8, 200⟩

/-- Full-scale factors for calculating charge current (source line 153). -/
def full_scale_charge_factors : Int × Int := (125, 100)

/-- Allowed values for the nPM1300 discharge limit (source line 156):
raw register codes looked up directly by the configured table index. -/
def npm1300_discharge_limits : List Nat := [84, 415]

/-- Linear range for the vbusin current limit (source line 159). -/
def vbus_current_range : LinearRange := ⟨100000, 100000, 1, 15⟩

/-- `struct npm13xx_charger_config` (source lines 13-34).  Fields that only
feed the floating-point thermistor model are kept as plain numbers; the two
floating-point converters themselves are not embedded (the claims never
depend on their values, only on which writes they feed). -/
structure ChargerConfig where
  term_microvolt : Int
  term_warm_microvolt : Int
  term_volt_ranges : Fin 2 → LinearRange
  current_microamp : Int
  current_range : LinearRange
  full_scale_discharge_factors : Int × Int
  dischg_limit_microamp : Int
  dischg_limit_idx : Nat
  vbus_limit_microamp : Int
  temp_thresholds : Fin 4 → Int
  dietemp_thresholds : Fin 2 → Int
  thermistor_ohms : Nat
  thermistor_beta : Nat
  thermistor_idx : Nat
  trickle_sel : Nat
  iterm_sel : Nat
  charging_enable : Bool
  vbatlow_charge_enable : Bool
  disable_recharge : Bool

/-- `struct npm13xx_charger_data` (source lines 36-45): the Live Sample
State.  All fields are raw register bytes / 10-bit codes. -/
structure ChargerData where
  voltage : Nat
  current : Nat
  temp : Nat
  dietemp : Nat
  status : Nat
  error : Nat
  ibat_stat : Nat
  vbus_stat : Nat
deriving DecidableEq

/-- `struct adc_results_t` (source lines 92-104): the fixed 11-byte packed
layout filled by the ADC burst read. -/
structure adc_results_t where
  ibat_stat : Nat
  msb_vbat : Nat
  msb_ntc : Nat
  msb_die : Nat
  msb_vsys : Nat
  lsb_a : Nat
  reserved1 : Nat
  reserved2 : Nat
  msb_ibat : Nat
  msb_vbus : Nat
  lsb_b : Nat
deriving DecidableEq

/-- Byte-level view of the burst: the packed `adc_results_t` fields in
declaration order, byte `0` first. -/
def adc_results_of_burst (b : Fin 11 → Nat) : adc_results_t :=
  ⟨b 0, b 1, b 2, b 3, b 4, b 5, b 6, b 7, b 8, b 9, b 10⟩

/-- `adc_get_res` (source lines 194-197):
`((uint16_t)msb << ADC_MSB_SHIFT) | ((lsb >> lsb_shift) & ADC_LSB_MASK)`. -/
def adc_get_res (msb lsb lsb_shift : Nat) : Nat :=
  (msb <<< ADC_MSB_SHIFT) ||| ((lsb >>> lsb_shift) &&& ADC_LSB_MASK)

/-- The decode step of `npm13xx_charger_sample_fetch` (source lines
324-328): stores the four decoded channel codes and the verbatim ibat status
byte into the Live Sample State. -/
def decode_results (r : adc_results_t) (s : ChargerData) : ChargerData :=
  { s with
    voltage := adc_get_res r.msb_vbat r.lsb_a ADC_LSB_VBAT_SHIFT
    temp := adc_get_res r.msb_ntc r.lsb_a ADC_LSB_NTC_SHIFT
    dietemp := adc_get_res r.msb_die r.lsb_a ADC_LSB_DIE_SHIFT
    current := adc_get_res r.msb_ibat r.lsb_b ADC_LSB_IBAT_SHIFT
    ibat_stat := r.ibat_stat }

/-- `calc_current` (source lines 199-250), as the microamp value passed to
`sensor_value_from_micro`.  All intermediate values stay well inside
`int32_t` for the in-range inputs documented in the source comments, so the
arithmetic is modelled over unbounded `Int` with C's truncating division
`Int.tdiv`. -/
def calc_current (cfg : ChargerConfig) (data : ChargerData) : Int :=
  let full_scale_ua : Int :=
    if data.ibat_stat = IBAT_STAT_DISCHARGE then
      Int.tdiv (-cfg.dischg_limit_microamp * cfg.full_scale_discharge_factors.1)
        cfg.full_scale_discharge_factors.2
    else if data.ibat_stat = IBAT_STAT_CHARGE_TRICKLE ∨
        data.ibat_stat = IBAT_STAT_CHARGE_COOL ∨
        data.ibat_stat = IBAT_STAT_CHARGE_NORMAL then
      Int.tdiv (cfg.current_microamp * full_scale_charge_factors.1)
        full_scale_charge_factors.2
    else 0
  Int.tdiv ((data.current : Int) * full_scale_ua) 1023

/-- Follows the claim's words (spec side, for comparison with
`calc_current`): the signed full-scale current selected from the ibat status
byte. -/
def full_scale_ua_spec (cfg : ChargerConfig) (ibat_stat : Nat) : Int :=
  if ibat_stat = 0x04 then
    Int.tdiv (-cfg.dischg_limit_microamp * cfg.full_scale_discharge_factors.1)
      cfg.full_scale_discharge_factors.2
  else if ibat_stat = 0x0C ∨ ibat_stat = 0x0D ∨ ibat_stat = 0x0F then
    Int.tdiv (cfg.current_microamp * 125) 100
  else 0

/-- `calc_dietemp` (source lines 173-181), as the millidegree value passed
to `sensor_value_from_milli`.  The C multiplication
`(int32_t)code * DIETEMP_FACTOR_MUL` is 32-bit signed and overflows for
`code ≥ 542`; the wrap is modelled explicitly with `toInt32` (the remaining
division and subtraction cannot overflow). -/
def calc_dietemp (code : Nat) : Int :=
  DIETEMP_OFFSET_MDEGC -
    Int.tdiv (toInt32 ((code : Int) * DIETEMP_FACTOR_MUL)) DIETEMP_FACTOR_DIV

/-- Modelled from the spec (§4.1 `die_temperature_from_code`): the intended
affine die-temperature formula `394670 − code*3963000/5000` over unbounded
integers (the datasheet equation the source comment cites). -/
def die_temperature_from_code (code : Nat) : Int :=
  394670 - Int.tdiv ((code : Int) * 3963000) 5000

/-- Modelled from the spec (§4.1 `dietemp_code_from_threshold`, "round to
nearest"): zephyr's `DIV_ROUND_CLOSEST` (from `zephyr/sys/util.h`, not under
`src/`): round half away from zero. -/
def div_round_closest (n d : Int) : Int :=
  if (n < 0 ↔ d < 0) then Int.tdiv (n + Int.tdiv d 2) d
  else Int.tdiv (n - Int.tdiv d 2) d

/-- The die-temperature threshold encoding of `set_dietemp_thresholds`
(source lines 373-378): `numerator` is `int32_t` (wrap modelled with
`toInt32`; it only overflows for thresholds below about -34.8 °C) and the
result is assigned to a `uint16_t` (mod 65536). -/
def dietemp_code_from_threshold (thr : Int) : Nat :=
  let numerator := toInt32 ((DIETEMP_OFFSET_MDEGC - thr) * DIETEMP_FACTOR_DIV)
  ((div_round_closest numerator DIETEMP_FACTOR_MUL) % 65536).toNat

/-- Modelled from the spec (§4.1): the intended inverse affine encoding
`round((394670 − threshold) * 5000 / 3963000)` over unbounded integers. -/
def dietemp_code_from_threshold_spec (thr : Int) : Int :=
  div_round_closest ((394670 - thr) * 5000) 3963000

/-- The NTC threshold code computation of `set_ntc_thresholds` (source line
355): `uint16_t code = (1024 * res) / (res + thermistor_ohms)` with `res` a
`uint32_t` (product and sum wrap mod 2^32, quotient truncated to 16 bits).
`res` itself comes from the floating-point `calc_ntc_res`, which is kept
abstract. -/
def ntc_code (cfg : ChargerConfig) (res : Nat) : Nat :=
  (((1024 * res) % 4294967296) / ((res + cfg.thermistor_ohms) % 4294967296)) % 65536

/-- A single traced register write: either `mfd_npm13xx_reg_write` or the
MSB/LSB pair write `mfd_npm13xx_reg_write2`. -/
inductive RegWrite where
  | write (base off val : Nat)
  | write2 (base off msb lsb : Nat)
deriving DecidableEq

/-- Modelled from the spec (§6): the register transport collaborator
(`mfd_npm13xx_reg_read` / `_read_burst` / `_write` / `_write2`), as a
deterministic oracle: each operation yields a result code (0 = success,
nonzero = transport error) and, for reads, the data.  On a failed read the
destination is treated as untouched. -/
structure Mfd where
  reg_read : Nat → Nat → Int × Nat
  reg_read_burst : Nat → Nat → Int × adc_results_t
  reg_write : Nat → Nat → Nat → Int
  reg_write2 : Nat → Nat → Nat → Nat → Int

/-- Number of pair writes (`reg_write2`) in a trace addressed to the given
base and offset. -/
def pair_writes_at (t : List RegWrite) (b off : Nat) : Nat :=
  t.countP fun op =>
    match op with
    | RegWrite.write2 b' off' _ _ => b' == b && off' == off
    | RegWrite.write _ _ _ => false

/-- `npm13xx_charger_sample_fetch` (source lines 299-346): returns the C
return value together with the Live Sample State after the call. -/
def npm13xx_charger_sample_fetch (o : Mfd) (s : ChargerData) : Int × ChargerData :=
  let r1 := o.reg_read CHGR_BASE CHGR_OFFSET_CHG_STAT
  if r1.1 ≠ 0 then (r1.1, s) else
  let s1 := { s with status := r1.2 }
  let r2 := o.reg_read CHGR_BASE CHGR_OFFSET_ERR_REASON
  if r2.1 ≠ 0 then (r2.1, s1) else
  let s2 := { s1 with error := r2.2 }
  let r3 := o.reg_read_burst ADC_BASE ADC_OFFSET_RESULTS
  if r3.1 ≠ 0 then (r3.1, s2) else
  let s3 := decode_results r3.2 s2
  let r4 := o.reg_write2 ADC_BASE ADC_OFFSET_TASK_TEMP 1 1
  if r4 ≠ 0 then (r4, s3) else
  let r5 := o.reg_write ADC_BASE ADC_OFFSET_TASK_VBAT 1
  if r5 ≠ 0 then (r5, s3) else
  let r6 := o.reg_read VBUS_BASE VBUS_OFFSET_STATUS
  if r6.1 ≠ 0 then (r6.1, s3) else (0, { s3 with vbus_stat := r6.2 })

/-- Sample state after the successful charge-status read of a fetch. -/
def fetch_stage1 (o : Mfd) (s : ChargerData) : ChargerData :=
  { s with status := (o.reg_read CHGR_BASE CHGR_OFFSET_CHG_STAT).2 }

/-- Sample state after the successful error-reason read of a fetch. -/
def fetch_stage2 (o : Mfd) (s : ChargerData) : ChargerData :=
  { fetch_stage1 o s with error := (o.reg_read CHGR_BASE CHGR_OFFSET_ERR_REASON).2 }

/-- Sample state after the successful ADC burst read and decode of a fetch. -/
def fetch_stage3 (o : Mfd) (s : ChargerData) : ChargerData :=
  decode_results (o.reg_read_burst ADC_BASE ADC_OFFSET_RESULTS).2 (fetch_stage2 o s)

/-- Sample state after a fully successful fetch. -/
def fetch_result (o : Mfd) (s : ChargerData) : ChargerData :=
  { fetch_stage3 o s with vbus_stat := (o.reg_read VBUS_BASE VBUS_OFFSET_STATUS).2 }

/-- Sensor channels dispatched on by `attr_set`; the enum's numeric values
live in zephyr's sensor headers and are immaterial. -/
inductive SensorChan where
  | gauge_desired_charging_current
  | current
  | other
deriving DecidableEq

/-- Sensor attributes dispatched on by `attr_set`. -/
inductive SensorAttr where
  | configuration
  | other
deriving DecidableEq

/-- `npm13xx_charger_attr_set` (source lines 471-518): returns the C return
value together with the trace of attempted register writes, in order. -/
def npm13xx_charger_attr_set (o : Mfd) (chan : SensorChan) (attr : SensorAttr)
    (val1 val2 : Int) : Int × List RegWrite :=
  let current := toInt32 (val1 * 1000000 + val2)
  if attr ≠ SensorAttr.configuration then (-ENOTSUP, []) else
  match chan with
  | SensorChan.gauge_desired_charging_current =>
    if val1 = 0 then
      (o.reg_write CHGR_BASE CHGR_OFFSET_EN_CLR 1,
       [RegWrite.write CHGR_BASE CHGR_OFFSET_EN_CLR 1])
    else
      let r := o.reg_write CHGR_BASE CHGR_OFFSET_ERR_CLR 1
      if r ≠ 0 then (r, [RegWrite.write CHGR_BASE CHGR_OFFSET_ERR_CLR 1])
      else
        (o.reg_write CHGR_BASE CHGR_OFFSET_EN_SET 1,
         [RegWrite.write CHGR_BASE CHGR_OFFSET_ERR_CLR 1,
          RegWrite.write CHGR_BASE CHGR_OFFSET_EN_SET 1])
  | SensorChan.current =>
    match linear_range_get_win_index vbus_current_range current current with
    | none => (-EINVAL, [])
    | some idx =>
      let r := o.reg_write VBUS_BASE VBUS_OFFSET_ILIM idx
      if r ≠ 0 then (r, [RegWrite.write VBUS_BASE VBUS_OFFSET_ILIM idx])
      else
        (o.reg_write VBUS_BASE VBUS_OFFSET_ILIMUPDATE 1,
         [RegWrite.write VBUS_BASE VBUS_OFFSET_ILIM idx,
          RegWrite.write VBUS_BASE VBUS_OFFSET_ILIMUPDATE 1])
  | SensorChan.other => (-ENOTSUP, [])

/-- The charge-current resolution performed by `npm13xx_charger_init`
(source lines 572-575): the windowed lookup with window
`[current_microamp - step + 1, current_microamp]`. -/
def init_charge_current_index (cfg : ChargerConfig) : Option Nat :=
  linear_range_get_win_index cfg.current_range
    (cfg.current_microamp - cfg.current_range.step + 1) cfg.current_microamp

/-- The charge-current / discharge-limit register writes of
`npm13xx_charger_init` (source lines 580-595), after the index `idx` has
been resolved: returns the C return value of the step together with the
trace of attempted writes. -/
def npm13xx_charger_init_iset (o : Mfd) (cfg : ChargerConfig) (idx : Nat) :
    Int × List RegWrite :=
  if cfg.dischg_limit_idx = UINT8_MAX then
    (o.reg_write CHGR_BASE CHGR_OFFSET_ISET idx,
     [RegWrite.write CHGR_BASE CHGR_OFFSET_ISET idx])
  else
    let r := o.reg_write2 CHGR_BASE CHGR_OFFSET_ISET (idx / 2) (idx &&& 1)
    if r ≠ 0 then
      (r, [RegWrite.write2 CHGR_BASE CHGR_OFFSET_ISET (idx / 2) (idx &&& 1)])
    else
      let lim := npm1300_discharge_limits.getD cfg.dischg_limit_idx 0
      (o.reg_write2 CHGR_BASE CHGR_OFFSET_ISET_DISCHG (lim / 2) (lim &&& 1),
       [RegWrite.write2 CHGR_BASE CHGR_OFFSET_ISET (idx / 2) (idx &&& 1),
        RegWrite.write2 CHGR_BASE CHGR_OFFSET_ISET_DISCHG (lim / 2) (lim &&& 1)])

/-- `set_ntc_thresholds` (source lines 348-368) as a loop over the given
slot indices, fail-fast, recording the attempted pair writes.  `res_of`
abstracts the floating-point `calc_ntc_res`. -/
def set_ntc_loop (o : Mfd) (cfg : ChargerConfig) (res_of : Int → Nat) :
    List (Fin 4) → Int × List RegWrite
  | [] => (0, [])
  | idx :: rest =>
    if cfg.temp_thresholds idx < INT32_MAX then
      let code := ntc_code cfg (res_of (cfg.temp_thresholds idx))
      let op := RegWrite.write2 CHGR_BASE (CHGR_OFFSET_NTC_TEMPS + idx.val * 2)
        (code >>> NTCTEMP_MSB_SHIFT) (code &&& NTCTEMP_LSB_MASK)
      let r := o.reg_write2 CHGR_BASE (CHGR_OFFSET_NTC_TEMPS + idx.val * 2)
        (code >>> NTCTEMP_MSB_SHIFT) (code &&& NTCTEMP_LSB_MASK)
      if r ≠ 0 then (r, [op])
      else
        let rec' := set_ntc_loop o cfg res_of rest
        (rec'.1, op :: rec'.2)
    else set_ntc_loop o cfg res_of rest

/-- `set_ntc_thresholds` over its four slots. -/
def set_ntc_thresholds (o : Mfd) (cfg : ChargerConfig) (res_of : Int → Nat) :
    Int × List RegWrite :=
  set_ntc_loop o cfg res_of [0, 1, 2, 3]

/-- `set_dietemp_thresholds` (source lines 370-391) as a loop over the given
slot indices, fail-fast, recording the attempted pair writes. -/
def set_dietemp_loop (o : Mfd) (cfg : ChargerConfig) :
    List (Fin 2) → Int × List RegWrite
  | [] => (0, [])
  | idx :: rest =>
    if cfg.dietemp_thresholds idx < INT32_MAX then
      let code := dietemp_code_from_threshold (cfg.dietemp_thresholds idx)
      let op := RegWrite.write2 CHGR_BASE (CHGR_OFFSET_DIE_TEMPS + idx.val * 2)
        (code >>> DIETEMP_MSB_SHIFT) (code &&& DIETEMP_LSB_MASK)
      let r := o.reg_write2 CHGR_BASE (CHGR_OFFSET_DIE_TEMPS + idx.val * 2)
        (code >>> DIETEMP_MSB_SHIFT) (code &&& DIETEMP_LSB_MASK)
      if r ≠ 0 then (r, [op])
      else
        let rec' := set_dietemp_loop o cfg rest
        (rec'.1, op :: rec'.2)
    else set_dietemp_loop o cfg rest

/-- `set_dietemp_thresholds` over its two slots. -/
def set_dietemp_thresholds (o : Mfd) (cfg : ChargerConfig) : Int × List RegWrite :=
  set_dietemp_loop o cfg [0, 1]

/-- An all-zero Live Sample State (the zero-initialized instance data). -/
def zeroData : ChargerData := ⟨0, 0, 0, 0, 0, 0, 0, 0⟩

/-- A transport oracle on which every operation succeeds and every read
returns zero. -/
def mfdOk : Mfd where
  reg_read := fun _ _ => (0, 0)
  reg_read_burst := fun _ _ => (0, ⟨0, 0, 0, 0, 0, 0, 0, 0, 0, 0, 0⟩)
  reg_write := fun _ _ _ => 0
  reg_write2 := fun _ _ _ _ => 0

/-- A transport oracle whose error-reason read fails with -5 while every
other read succeeds and returns 7. -/
def mfdErrReasonFails : Mfd where
  reg_read := fun b off =>
    if b == CHGR_BASE && off == CHGR_OFFSET_ERR_REASON then (-5, 0) else (0, 7)
  reg_read_burst := fun _ _ => (0, ⟨0, 0, 0, 0, 0, 0, 0, 0, 0, 0, 0⟩)
  reg_write := fun _ _ _ => 0
  reg_write2 := fun _ _ _ _ => 0

/-- A baseline nPM1300-flavoured configuration used to build concrete test
configurations. -/
def defaultConfig : ChargerConfig where
  term_microvolt := 4150000
  term_warm_microvolt := 4000000
  term_volt_ranges := ![⟨3500000, 50000, 0, 3⟩, ⟨4000000, 50000, 4, 13⟩]
  current_microamp := 150000
  current_range := NPM1300_CHARGER_CURRENT_RANGE
  full_scale_discharge_factors := (112, 100)
  dischg_limit_microamp := 1000000
  dischg_limit_idx := 1
  vbus_limit_microamp := 500000
  temp_thresholds := ![INT32_MAX, INT32_MAX, INT32_MAX, INT32_MAX]
  dietemp_thresholds := ![INT32_MAX, INT32_MAX]
  thermistor_ohms := 10000
  thermistor_beta := 3380
  thermistor_idx := 1
  trickle_sel := 0
  iterm_sel := 0
  charging_enable := true
  vbatlow_charge_enable := false
  disable_recharge := false

/-- The discharge example of the spec: limit 1 A, factors 112/100. -/
def dischargeExampleConfig : ChargerConfig :=
  { defaultConfig with
    dischg_limit_microamp := 1000000
    full_scale_discharge_factors := (112, 100) }

/-- Sample state for the discharge example: discharge status, code 1023. -/
def dischargeExampleData : ChargerData :=
  { zeroData with ibat_stat := IBAT_STAT_DISCHARGE, current := 1023 }


/-- Configuration for the charge-current lookup example: requested current
33000 µA over the nPM1300 range (base 32000 µA, step 2000 µA). -/
def currentLookupExampleConfig : ChargerConfig :=
  { defaultConfig with current_microamp := 33000 }

/-- Configuration with exactly one non-sentinel NTC threshold (slot 0) and
both die-temperature thresholds unset. -/
def thresholdsExampleConfig : ChargerConfig :=
  { defaultConfig with temp_thresholds := ![20000, INT32_MAX, INT32_MAX, INT32_MAX] }

/-! ## Helper lemmas -/

/-- Any `adc_get_res` result is a 10-bit code: the MSB byte contributes at
most `255 <<< 2 = 1020` and the masked LSB at most `3`. -/
theorem adc_res_bound (msb lsb shift : Nat) (h : msb < 256) :
    adc_get_res msb lsb shift ≤ 1023 := by
  unfold adc_get_res
  have h1 : msb <<< ADC_MSB_SHIFT < 2 ^ 10 := by
    simp only [Nat.shiftLeft_eq, ADC_MSB_SHIFT]
    omega
  have h2 : (lsb >>> shift) &&& ADC_LSB_MASK < 2 ^ 10 :=
    lt_of_le_of_lt Nat.and_le_right (by norm_num [ADC_LSB_MASK])
  have h3 := Nat.or_lt_two_pow h1 h2
  omega

/-- Exhaustive case analysis of `npm13xx_charger_sample_fetch`: a fetch
either fully succeeds (all fields replaced) or returns a nonzero error with
the Live Sample State equal to one of the intermediate stages. -/
theorem fetch_cases (o : Mfd) (s : ChargerData) :
    ((npm13xx_charger_sample_fetch o s).1 = 0 ∧
     (npm13xx_charger_sample_fetch o s).2 = fetch_result o s) ∨
    ((npm13xx_charger_sample_fetch o s).1 ≠ 0 ∧
     ((npm13xx_charger_sample_fetch o s).2 = s ∨
      (npm13xx_charger_sample_fetch o s).2 = fetch_stage1 o s ∨
      (npm13xx_charger_sample_fetch o s).2 = fetch_stage2 o s ∨
      (npm13xx_charger_sample_fetch o s).2 = fetch_stage3 o s)) := by
  simp only [npm13xx_charger_sample_fetch]
  split_ifs with h1 h2 h3 h4 h5 h6
  · exact Or.inr ⟨h1, Or.inl rfl⟩
  · exact Or.inr ⟨h2, Or.inr (Or.inl rfl)⟩
  · exact Or.inr ⟨h3, Or.inr (Or.inr (Or.inl rfl))⟩
  · exact Or.inr ⟨h4, Or.inr (Or.inr (Or.inr rfl))⟩
  · exact Or.inr ⟨h5, Or.inr (Or.inr (Or.inr rfl))⟩
  · exact Or.inr ⟨h6, Or.inr (Or.inr (Or.inr rfl))⟩
  · exact Or.inl ⟨rfl, rfl⟩

/-! ## Claim theorems -/

/-- Claim C1: for every configuration and sample state with code ≤ 1023,
`calc_current` selects the signed full-scale current from the ibat status
byte (discharge 0x04 → `-dischg_limit * f0 / f1`; trickle 0x0C / cool 0x0D /
normal 0x0F charging → `current_microamp * 125 / 100`; anything else → 0)
and returns `code * full_scale / 1023` with truncating division; with the
discharge example (limit 1 A, factors 112/100, code 1023) the result is
exactly -1120000 µA. -/
theorem calc_current_selects_full_scale :
    (∀ (cfg : ChargerConfig) (data : ChargerData), data.current ≤ 1023 →
      calc_current cfg data =
        Int.tdiv ((data.current : Int) * full_scale_ua_spec cfg data.ibat_stat) 1023) ∧
    calc_current dischargeExampleConfig dischargeExampleData = -1120000 := by
  refine ⟨fun cfg data _ => rfl, by decide⟩

/-- Witness for C1: the hypothesis `code ≤ 1023` holds at the discharge
example and the conversion agrees with the spec-side full scale there. -/
theorem calc_current_selects_full_scale_witness :
    dischargeExampleData.current ≤ 1023 ∧
    calc_current dischargeExampleConfig dischargeExampleData =
      Int.tdiv ((dischargeExampleData.current : Int) *
        full_scale_ua_spec dischargeExampleConfig dischargeExampleData.ibat_stat) 1023 :=
  ⟨by decide, calc_current_selects_full_scale.1 _ _ (by decide)⟩

/-- Claim C2: for every 11-byte ADC burst payload, the decoder produces each
10-bit channel code as `(msb <<< 2) ||| ((lsb >>> shift) &&& 0b11)` with
battery voltage from byte 1 (shift 0 in `lsb_a` = byte 5), NTC temperature
from byte 2 (shift 2), die temperature from byte 3 (shift 4), battery
current from byte 8 (shift 4 in `lsb_b` = byte 10), and the ibat status byte
taken verbatim from byte 0. -/
theorem adc_burst_decode_formula (b : Fin 11 → Nat) (s : ChargerData) :
    (decode_results (adc_results_of_burst b) s).voltage =
      ((b 1) <<< 2) ||| (((b 5) >>> 0) &&& 3) ∧
    (decode_results (adc_results_of_burst b) s).temp =
      ((b 2) <<< 2) ||| (((b 5) >>> 2) &&& 3) ∧
    (decode_results (adc_results_of_burst b) s).dietemp =
      ((b 3) <<< 2) ||| (((b 5) >>> 4) &&& 3) ∧
    (decode_results (adc_results_of_burst b) s).current =
      ((b 8) <<< 2) ||| (((b 10) >>> 4) &&& 3) ∧
    (decode_results (adc_results_of_burst b) s).ibat_stat = b 0 :=
  ⟨rfl, rfl, rfl, rfl, rfl⟩

/-- Claim C4: after the charge-current index is resolved during init, the
sentinel table index `UINT8_MAX` produces exactly one register write
carrying the charge-current value, while any other table index produces the
pair write `(idx / 2, idx &&& 1)` followed by a pair write of the
discharge-limit table entry split the same way, the table being a direct
index-to-raw-code lookup. -/
theorem init_iset_write_split (o : Mfd) (cfg : ChargerConfig) (idx : Nat)
    (hw2 : ∀ b off m l, o.reg_write2 b off m l = 0) :
    (cfg.dischg_limit_idx = UINT8_MAX →
      npm13xx_charger_init_iset o cfg idx =
        (o.reg_write CHGR_BASE CHGR_OFFSET_ISET idx,
         [RegWrite.write CHGR_BASE CHGR_OFFSET_ISET idx])) ∧
    (cfg.dischg_limit_idx ≠ UINT8_MAX →
      npm13xx_charger_init_iset o cfg idx =
        (0, [RegWrite.write2 CHGR_BASE CHGR_OFFSET_ISET (idx / 2) (idx &&& 1),
             RegWrite.write2 CHGR_BASE CHGR_OFFSET_ISET_DISCHG
               (npm1300_discharge_limits.getD cfg.dischg_limit_idx 0 / 2)
               (npm1300_discharge_limits.getD cfg.dischg_limit_idx 0 &&& 1)])) := by
  constructor
  · intro h
    simp [npm13xx_charger_init_iset, h]
  · intro h
    simp [npm13xx_charger_init_iset, h, hw2]

/-- Witness for C4: with an all-success transport, table index 0 and
resolved index 33, the two pair writes carry (16,1) and (42,0). -/
theorem init_iset_write_split_witness :
    (∀ b off m l, mfdOk.reg_write2 b off m l = 0) ∧
    npm13xx_charger_init_iset mfdOk { defaultConfig with dischg_limit_idx := 0 } 33 =
      (0, [RegWrite.write2 CHGR_BASE CHGR_OFFSET_ISET 16 1,
           RegWrite.write2 CHGR_BASE CHGR_OFFSET_ISET_DISCHG 42 0]) :=
  ⟨fun _ _ _ _ => rfl,
   (init_iset_write_split mfdOk { defaultConfig with dischg_limit_idx := 0 } 33
     (fun _ _ _ _ => rfl)).2 (by decide)⟩

/-- Claim C5: `attr_set` on the desired-charging-current channel with
`val1 = 0` performs exactly the single charging-disable write; with nonzero
`val1` it performs the clear-error write first and the enable write second,
and when the clear-error write fails its error is returned and the enable
write is never issued. -/
theorem attr_set_charging_write_order (o : Mfd) (v1 v2 : Int) :
    npm13xx_charger_attr_set o SensorChan.gauge_desired_charging_current
      SensorAttr.configuration v1 v2 =
      if v1 = 0 then
        (o.reg_write CHGR_BASE CHGR_OFFSET_EN_CLR 1,
         [RegWrite.write CHGR_BASE CHGR_OFFSET_EN_CLR 1])
      else if o.reg_write CHGR_BASE CHGR_OFFSET_ERR_CLR 1 ≠ 0 then
        (o.reg_write CHGR_BASE CHGR_OFFSET_ERR_CLR 1,
         [RegWrite.write CHGR_BASE CHGR_OFFSET_ERR_CLR 1])
      else
        (o.reg_write CHGR_BASE CHGR_OFFSET_EN_SET 1,
         [RegWrite.write CHGR_BASE CHGR_OFFSET_ERR_CLR 1,
          RegWrite.write CHGR_BASE CHGR_OFFSET_EN_SET 1]) := rfl

/-- Claim C6 evaluation: the die-temperature round trip is exact at codes 0
and 512 on the code as written, and the intended unbounded-integer formula
is exact at 1023 as well, but the code's 32-bit multiplication
`1023 * 3963000` overflows: with two's-complement wrap `calc_dietemp 1023`
yields 442833 m°C instead of -416159 m°C and the round trip returns 65475,
not 1023. -/
theorem calc_dietemp_roundtrip_int32_overflow :
    (dietemp_code_from_threshold (calc_dietemp 0) = 0 ∧
     dietemp_code_from_threshold (calc_dietemp 512) = 512) ∧
    (die_temperature_from_code 1023 = -416159 ∧
     dietemp_code_from_threshold_spec (die_temperature_from_code 0) = 0 ∧
     dietemp_code_from_threshold_spec (die_temperature_from_code 512) = 512 ∧
     dietemp_code_from_threshold_spec (die_temperature_from_code 1023) = 1023) ∧
    (calc_dietemp 1023 = 442833 ∧
     dietemp_code_from_threshold (calc_dietemp 1023) = 65475) := by
  decide

/-- Counterexample to C8 as stated: with a transport whose error-reason read
fails after a successful status read, `sample_fetch` returns a transport
error yet the Live Sample State differs from its value before the call. -/
theorem sample_fetch_error_state_changed :
    (npm13xx_charger_sample_fetch mfdErrReasonFails zeroData).1 ≠ 0 ∧
    (npm13xx_charger_sample_fetch mfdErrReasonFails zeroData).2 ≠ zeroData := by
  decide

/-- Claim C8 (amended): `sample_fetch` updates the Live Sample State
incrementally, not wholesale: an execution that returns a transport error
leaves the state equal to one of the update prefixes (unchanged; status
stored; status and error stored; status, error and the five decoded ADC
fields stored), keeping every field written by the transport calls that
succeeded before the failure; only a fully successful fetch updates all
fields including `vbus_stat`. -/
theorem sample_fetch_incremental_update (o : Mfd) (s : ChargerData) :
    ((npm13xx_charger_sample_fetch o s).1 = 0 ∧
     (npm13xx_charger_sample_fetch o s).2 = fetch_result o s) ∨
    ((npm13xx_charger_sample_fetch o s).1 ≠ 0 ∧
     ((npm13xx_charger_sample_fetch o s).2 = s ∨
      (npm13xx_charger_sample_fetch o s).2 = fetch_stage1 o s ∨
      (npm13xx_charger_sample_fetch o s).2 = fetch_stage2 o s ∨
      (npm13xx_charger_sample_fetch o s).2 = fetch_stage3 o s)) :=
  fetch_cases o s

/-- Claim C9: every decoder result `(msb <<< 2) ||| ((lsb >>> shift) &&& 3)`
with a byte-sized MSB is at most 1023, so the battery-current code held in
the sample state after any `sample_fetch` still satisfies the `code ≤ 1023`
precondition that `calc_current`'s overflow reasoning asserts. -/
theorem sample_fetch_current_code_bounded :
    (∀ msb lsb shift : Nat, msb < 256 → adc_get_res msb lsb shift ≤ 1023) ∧
    (∀ (o : Mfd) (s : ChargerData),
      (o.reg_read_burst ADC_BASE ADC_OFFSET_RESULTS).2.msb_ibat < 256 →
      s.current ≤ 1023 →
      ((npm13xx_charger_sample_fetch o s).2).current ≤ 1023) := by
  constructor
  · exact fun msb lsb shift h => adc_res_bound msb lsb shift h
  · intro o s hmsb hcur
    have hb : (fetch_stage3 o s).current ≤ 1023 :=
      adc_res_bound _ _ _ hmsb
    rcases fetch_cases o s with ⟨-, h⟩ | ⟨-, h | h | h | h⟩ <;> rw [h]
    · exact hb
    · exact hcur
    · exact hcur
    · exact hcur
    · exact hb

/-- Witness for C9: byte-sized MSB 255 satisfies the bound, and a concrete
all-success fetch over the zero state keeps the current code at most 1023. -/
theorem sample_fetch_current_code_bounded_witness :
    ((255 : Nat) < 256 ∧ adc_get_res 255 255 0 ≤ 1023) ∧
    ((mfdOk.reg_read_burst ADC_BASE ADC_OFFSET_RESULTS).2.msb_ibat < 256 ∧
     zeroData.current ≤ 1023 ∧
     ((npm13xx_charger_sample_fetch mfdOk zeroData).2).current ≤ 1023) :=
  ⟨⟨by decide, sample_fetch_current_code_bounded.1 255 255 0 (by decide)⟩,
   ⟨by decide, by decide,
    sample_fetch_current_code_bounded.2 mfdOk zeroData (by decide) (by decide)⟩⟩

/-- Claim C10: `attr_set` on the desired-charging-current channel decides
between disable and enable using only `val1`: for every `val2`, including a
nonzero fractional microamp part, `val1 = 0` disables charging with the
single disable write and the clear-error/enable path is never taken. -/
theorem attr_set_val1_zero_disables (o : Mfd) (val2 : Int) :
    npm13xx_charger_attr_set o SensorChan.gauge_desired_charging_current
      SensorAttr.configuration 0 val2 =
      (o.reg_write CHGR_BASE CHGR_OFFSET_EN_CLR 1,
       [RegWrite.write CHGR_BASE CHGR_OFFSET_EN_CLR 1]) := rfl


/-- When the windowed lookup fails, no in-bounds index has its value inside
the window. -/
theorem win_index_none (r : LinearRange) (lo hi : Int)
    (h : linear_range_get_win_index r lo hi = none) :
    ∀ j, r.min_idx ≤ j → j ≤ r.max_idx → ¬(lo ≤ lrValue r j ∧ lrValue r j ≤ hi) := by
  intro j hj1 hj2 hcontra
  unfold linear_range_get_win_index at h
  rw [List.find?_eq_none] at h
  have hjmem : j ∈ List.range' r.min_idx (r.max_idx + 1 - r.min_idx) := by
    rw [List.mem_range'_1]
    omega
  have hj := h j hjmem
  simp only [decide_eq_true_eq] at hj
  exact hj hcontra

/-- When the windowed lookup succeeds, the returned index is in bounds and
its value lies inside the window. -/
theorem win_index_some (r : LinearRange) (lo hi : Int) (i : Nat)
    (h : linear_range_get_win_index r lo hi = some i) :
    r.min_idx ≤ i ∧ i ≤ r.max_idx ∧ lo ≤ lrValue r i ∧ lrValue r i ≤ hi := by
  unfold linear_range_get_win_index at h
  have hp := List.find?_some h
  have hm := List.mem_of_find?_eq_some h
  rw [List.mem_range'_1] at hm
  simp only [decide_eq_true_eq] at hp
  exact ⟨hm.1, by omega, hp.1, hp.2⟩

/-- If an index's value lies in the width-`step` window ending at `cur`,
its value is the largest range value that is at most `cur`. -/
theorem lr_window_max (r : LinearRange) (cur : Int) (hstep : 0 < r.step)
    (i j : Nat) (hwin : cur - r.step + 1 ≤ lrValue r i)
    (hj : lrValue r j ≤ cur) : lrValue r j ≤ lrValue r i := by
  rcases le_or_lt (lrValue r j) (lrValue r i) with h | h
  · exact h
  · exfalso
    unfold lrValue at *
    have hij : (i : Int) - (r.min_idx : Int) < (j : Int) - (r.min_idx : Int) :=
      (mul_lt_mul_left hstep).mp (by linarith)
    have hone : ((i : Int) - (r.min_idx : Int)) + 1 ≤ (j : Int) - (r.min_idx : Int) := by
      omega
    have hmul : r.step * (((i : Int) - (r.min_idx : Int)) + 1) ≤
        r.step * ((j : Int) - (r.min_idx : Int)) :=
      mul_le_mul_of_nonneg_left hone hstep.le
    rw [mul_add, mul_one] at hmul
    linarith

/-- Claim C3: during initialization the charge-current lookup is invoked
with the window `[current_microamp - step + 1, current_microamp]`, so for a
requested current at or above the lowest representable step it resolves to
the index of the highest valid step at most the requested current (rounding
down, never up), and it fails only when no step value lies in that window. -/
theorem init_charge_current_rounds_down (cfg : ChargerConfig)
    (hidx : cfg.current_range.min_idx ≤ cfg.current_range.max_idx)
    (hstep : 0 < cfg.current_range.step)
    (hcur : cfg.current_range.min ≤ cfg.current_microamp) :
    (∀ i, init_charge_current_index cfg = some i →
      cfg.current_range.min_idx ≤ i ∧ i ≤ cfg.current_range.max_idx ∧
      cfg.current_microamp - cfg.current_range.step + 1 ≤ lrValue cfg.current_range i ∧
      lrValue cfg.current_range i ≤ cfg.current_microamp ∧
      ∀ j, cfg.current_range.min_idx ≤ j → j ≤ cfg.current_range.max_idx →
        lrValue cfg.current_range j ≤ cfg.current_microamp →
        lrValue cfg.current_range j ≤ lrValue cfg.current_range i) ∧
    (init_charge_current_index cfg = none →
      ∀ j, cfg.current_range.min_idx ≤ j → j ≤ cfg.current_range.max_idx →
        ¬(cfg.current_microamp - cfg.current_range.step + 1 ≤ lrValue cfg.current_range j ∧
          lrValue cfg.current_range j ≤ cfg.current_microamp)) := by
  constructor
  · intro i hi
    unfold init_charge_current_index at hi
    obtain ⟨ha, hb, hc, hd⟩ := win_index_some _ _ _ _ hi
    exact ⟨ha, hb, hc, hd,
      fun j _ _ hj => lr_window_max cfg.current_range cfg.current_microamp hstep i j hc hj⟩
  · intro hnone
    unfold init_charge_current_index at hnone
    exact win_index_none _ _ _ hnone

/-- Witness for C3: the nPM1300 range with requested current 33000 µA
(strictly between the steps 32000 and 34000) satisfies the hypotheses. -/
theorem init_charge_current_rounds_down_witness :
    (currentLookupExampleConfig.current_range.min_idx ≤
       currentLookupExampleConfig.current_range.max_idx ∧
     0 < currentLookupExampleConfig.current_range.step ∧
     currentLookupExampleConfig.current_range.min ≤
       currentLookupExampleConfig.current_microamp) ∧
    ((∀ i, init_charge_current_index currentLookupExampleConfig = some i →
      currentLookupExampleConfig.current_range.min_idx ≤ i ∧
      i ≤ currentLookupExampleConfig.current_range.max_idx ∧
      currentLookupExampleConfig.current_microamp -
        currentLookupExampleConfig.current_range.step + 1 ≤
        lrValue currentLookupExampleConfig.current_range i ∧
      lrValue currentLookupExampleConfig.current_range i ≤
        currentLookupExampleConfig.current_microamp ∧
      ∀ j, currentLookupExampleConfig.current_range.min_idx ≤ j →
        j ≤ currentLookupExampleConfig.current_range.max_idx →
        lrValue currentLookupExampleConfig.current_range j ≤
          currentLookupExampleConfig.current_microamp →
        lrValue currentLookupExampleConfig.current_range j ≤
          lrValue currentLookupExampleConfig.current_range i) ∧
    (init_charge_current_index currentLookupExampleConfig = none →
      ∀ j, currentLookupExampleConfig.current_range.min_idx ≤ j →
        j ≤ currentLookupExampleConfig.current_range.max_idx →
        ¬(currentLookupExampleConfig.current_microamp -
            currentLookupExampleConfig.current_range.step + 1 ≤
            lrValue currentLookupExampleConfig.current_range j ∧
          lrValue currentLookupExampleConfig.current_range j ≤
            currentLookupExampleConfig.current_microamp))) :=
  ⟨⟨by decide, by decide, by decide⟩,
   init_charge_current_rounds_down currentLookupExampleConfig
     (by decide) (by decide) (by decide)⟩

/-- Claim C7: with a working transport, every sentinel (`INT32_MAX`)
threshold produces zero pair writes for its slot and every non-sentinel
threshold at slot `idx` produces exactly one MSB+LSB pair write at register
offset `base + idx*2` (NTC base 0x10 for the four NTC slots, die-temperature
base 0x18 for the two die-temperature slots). -/
theorem set_thresholds_write_counts (o : Mfd) (cfg : ChargerConfig)
    (res_of : Int → Nat) (hw2 : ∀ b off m l, o.reg_write2 b off m l = 0) :
    (∀ i : Fin 4,
      pair_writes_at (set_ntc_thresholds o cfg res_of).2 CHGR_BASE
        (CHGR_OFFSET_NTC_TEMPS + i.val * 2) =
        if cfg.temp_thresholds i < INT32_MAX then 1 else 0) ∧
    (∀ i : Fin 2,
      pair_writes_at (set_dietemp_thresholds o cfg).2 CHGR_BASE
        (CHGR_OFFSET_DIE_TEMPS + i.val * 2) =
        if cfg.dietemp_thresholds i < INT32_MAX then 1 else 0) := by
  constructor
  · intro i
    by_cases c0 : cfg.temp_thresholds 0 < INT32_MAX <;>
    by_cases c1 : cfg.temp_thresholds 1 < INT32_MAX <;>
    by_cases c2 : cfg.temp_thresholds 2 < INT32_MAX <;>
    by_cases c3 : cfg.temp_thresholds 3 < INT32_MAX <;>
      fin_cases i <;>
      simp [set_ntc_thresholds, set_ntc_loop, hw2, c0, c1, c2, c3,
        pair_writes_at, List.countP_cons, List.countP_nil,
        CHGR_OFFSET_NTC_TEMPS, CHGR_BASE] <;>
      decide
  · intro i
    by_cases c0 : cfg.dietemp_thresholds 0 < INT32_MAX <;>
    by_cases c1 : cfg.dietemp_thresholds 1 < INT32_MAX <;>
      fin_cases i <;>
      simp [set_dietemp_thresholds, set_dietemp_loop, hw2, c0, c1,
        pair_writes_at, List.countP_cons, List.countP_nil,
        CHGR_OFFSET_DIE_TEMPS, CHGR_BASE] <;>
      decide

/-- Witness for C7: an all-success transport with one non-sentinel NTC
threshold (slot 0) and all other slots unset. -/
theorem set_thresholds_write_counts_witness :
    (∀ b off m l, mfdOk.reg_write2 b off m l = 0) ∧
    ((∀ i : Fin 4,
      pair_writes_at
        (set_ntc_thresholds mfdOk thresholdsExampleConfig (fun _ => 10000)).2
        CHGR_BASE (CHGR_OFFSET_NTC_TEMPS + i.val * 2) =
        if thresholdsExampleConfig.temp_thresholds i < INT32_MAX then 1 else 0) ∧
    (∀ i : Fin 2,
      pair_writes_at (set_dietemp_thresholds mfdOk thresholdsExampleConfig).2
        CHGR_BASE (CHGR_OFFSET_DIE_TEMPS + i.val * 2) =
        if thresholdsExampleConfig.dietemp_thresholds i < INT32_MAX then 1 else 0)) :=
  ⟨fun _ _ _ _ => rfl,
   set_thresholds_write_counts mfdOk thresholdsExampleConfig (fun _ => 10000)
     (fun _ _ _ _ => rfl)⟩

end Npm13xx
